import Mathlib

/-!
Shallow embedding of the voice-emotion-detection backend
(backend/audio_processor.py and backend/main.py).

Audio samples are modelled as exact rationals.  The one floating-point
square root whose result feeds a control-flow decision, the RMS-energy
comparison `np.sqrt(np.mean(audio ** 2)) < 0.001` in `preprocess_audio`,
is embedded as the equivalent squared comparison over ℚ; the lemma
`energyBelowThreshold_iff` below records the equivalence with the
real-valued square-root form.  The `np.sqrt` inside `np.std`, the librosa
kernels `mfcc` / `delta`, and the pre-fitted scaler / classifier / label
encoder artifacts are external library calls, not code of this
repository, and are kept abstract as fields of `LibEnv` / `ModelCtx`.
An external call that may raise a Python exception is modelled as an
Option-valued function (`none` = the call raised).
-/

namespace VoiceEmotion

/-- Configuration constant SAMPLE_RATE = 16000 of audio_processor.py. -/
def SAMPLE_RATE : ℕ := 16000

/-- Configuration constant DURATION = 3.5. -/
def DURATION : ℚ := 7 / 2

/-- Configuration constant N_MFCC = 40. -/
def N_MFCC : ℕ := 40

/-- Configuration constant MIN_AUDIO_ENERGY = 0.001. -/
def MIN_AUDIO_ENERGY : ℚ := 1 / 1000

/-- The sum of squares np.sum(audio ** 2), so that np.mean(audio ** 2)
is `sumSq a / a.length`. -/
def sumSq (a : List ℚ) : ℚ := (a.map (fun x => x * x)).sum

/-- The quality gate of `preprocess_audio`:
`audio_energy = np.sqrt(np.mean(audio ** 2))` followed by
`audio_energy < MIN_AUDIO_ENERGY`, embedded as the equivalent squared
comparison (for `0 ≤ m` and `0 < t`, `Real.sqrt m < t ↔ m < t ^ 2`).
`np.mean` of an empty array is NaN and `NaN < 0.001` is false, hence the
length guard: an empty waveform is not rejected by the gate. -/
def energyBelowThreshold (a : List ℚ) : Bool :=
  decide (0 < a.length) && decide (sumSq a < MIN_AUDIO_ENERGY ^ 2 * a.length)

/-- target_length = int(SAMPLE_RATE * DURATION): Python `int` truncates
toward zero, which on the nonnegative exact product 56000 is the floor. -/
def targetLength : ℕ := (⌊(SAMPLE_RATE : ℚ) * DURATION⌋).toNat

/-- Pad-or-trim step of `preprocess_audio`: right-pad with zeros via
`np.pad(audio, (0, target_length - len(audio)), mode='constant')` when the
waveform is short, else keep the first target_length samples. -/
def padOrTrim (a : List ℚ) : List ℚ :=
  if a.length < targetLength then a ++ List.replicate (targetLength - a.length) 0
  else a.take targetLength

/-- np.max(np.abs(audio)).  numpy's max over a nonempty array of
nonnegative entries agrees with folding `max` from the initial value 0. -/
def maxAbs (a : List ℚ) : ℚ := (a.map (fun x => |x|)).foldr max 0

/-- Amplitude normalisation step of `preprocess_audio`: when the peak is
positive, divide every sample by it; otherwise leave the waveform alone. -/
def normalizeAmplitude (a : List ℚ) : List ℚ :=
  if 0 < maxAbs a then a.map (fun x => x / maxAbs a) else a

/-- A raw audio handle: the uploaded file's name together with the result
of decoding its bytes with `librosa.load(path, sr=SAMPLE_RATE, mono=True)`.
`decoded = none` models a decode failure (the load call raises). -/
structure AudioFile where
  filename : String
  decoded : Option (List ℚ)

/-- `preprocess_audio` of audio_processor.py.  Its try/except catches any
exception (in particular a decode failure) and returns None, modelled as
`none`; otherwise the waveform passes the energy gate, is padded or
trimmed to `targetLength`, and is peak-normalised. -/
def preprocess_audio (f : AudioFile) : Option (List ℚ) :=
  match f.decoded with
  | none => none
  | some audio =>
    if energyBelowThreshold audio then none
    else some (normalizeAmplitude (padOrTrim audio))

/-- The external numeric kernels used by `extract_features`:
`librosa.feature.mfcc(y, sr=SAMPLE_RATE, n_mfcc=N_MFCC)`,
`librosa.feature.delta` at orders one and two, and the floating-point
square root that `np.std` applies to the variance.  A matrix is a list of
coefficient rows; `none` models a raised exception. -/
structure LibEnv where
  mfcc : List ℚ → Option (List (List ℚ))
  delta : List (List ℚ) → Option (List (List ℚ))
  delta2 : List (List ℚ) → Option (List (List ℚ))
  sqrt : ℚ → ℚ

/-- np.mean over one coefficient row (the time axis).  Division by zero
in ℚ yields 0 where numpy would yield NaN; no claim depends on the value
at an empty row. -/
def rowMean (r : List ℚ) : ℚ := r.sum / r.length

/-- The population variance that np.std computes before its square root. -/
def rowVar (r : List ℚ) : ℚ := ((r.map (fun x => (x - rowMean r) ^ 2)).sum) / r.length

/-- np.std over one coefficient row: the floating-point square root of
the population variance. -/
def rowStd (env : LibEnv) (r : List ℚ) : ℚ := env.sqrt (rowVar r)

/-- The outcome of running a Python call site that is not wrapped in its
own try/except: either a value, or an exception escaping to the caller. -/
inductive PyResult (α : Type) where
  | raised : PyResult α
  | ok : α → PyResult α
deriving DecidableEq

/-- `extract_features` of audio_processor.py: preprocess, then the three
cepstral matrices, then per-row mean and std of each, concatenated as
[mfcc_mean, mfcc_std, delta_mean, delta_std, delta2_mean, delta2_std].
`ok none` is Python's `return None` (rejected audio); `raised` is an
exception escaping `extract_features` (it has no try/except of its own). -/
def extract_features (env : LibEnv) (f : AudioFile) : PyResult (Option (List ℚ)) :=
  match preprocess_audio f with
  | none => .ok none
  | some audio =>
    match env.mfcc audio with
    | none => .raised
    | some mfccs =>
      match env.delta mfccs with
      | none => .raised
      | some mfcc_delta =>
        match env.delta2 mfccs with
        | none => .raised
        | some mfcc_delta2 =>
          .ok (some (mfccs.map rowMean ++ mfccs.map (rowStd env) ++
                mfcc_delta.map rowMean ++ mfcc_delta.map (rowStd env) ++
                mfcc_delta2.map rowMean ++ mfcc_delta2.map (rowStd env)))

/-- The filename pre-filter `file.filename.endswith('.wav')` of main.py:
Python's str.endswith is character-level suffix comparison, embedded on
the string's character list. -/
def wavSuffix (name : String) : Bool := (".wav".data).isSuffixOf name.data

/-- The response model PredictionResponse of main.py.  The probability
dictionary is an insertion-ordered association list, as a Python dict is;
`error = none` is the field's default None. -/
structure PredictionResponse where
  emotion : String
  confidence : ℚ
  all_probabilities : List (String × ℚ)
  valid : Bool
  error : Option String
deriving DecidableEq

/-- The pre-fitted classifier artifact `emotion_classifier.joblib`, kept
opaque: its class count (the length of model.classes_), its decision
function `model.predict(x)[0]` and its probability estimator
`model.predict_proba(x)[0]`.  `none` models a raised exception (for
example a feature-shape mismatch). -/
structure Classifier where
  nClasses : ℕ
  cls_predict : List ℚ → Option ℕ
  cls_predict_proba : List ℚ → Option (List ℚ)

/-- The process-wide model state that `load_models` fills: the label
encoder's ordered class list label_encoder.classes_, the scaler's
transform applied to one feature row, and the classifier. -/
structure ModelCtx where
  classes : List String
  scaler : List ℚ → Option (List ℚ)
  cls_predict : List ℚ → Option ℕ
  cls_predict_proba : List ℚ → Option (List ℚ)

/-- `load_models` of main.py: three `joblib.load` calls inside one
try/except that re-raises.  `none` for an argument models its load
raising; any such failure aborts startup (`raise` propagates), and no
other validation is performed on the loaded artifacts. -/
def load_models (c : Option Classifier) (l : Option (List String))
    (s : Option (List ℚ → Option (List ℚ))) : Option ModelCtx :=
  match c, l, s with
  | some c, some l, some s =>
      some { classes := l, scaler := s, cls_predict := c.cls_predict,
             cls_predict_proba := c.cls_predict_proba }
  | _, _, _ => none

/-- One assignment `d[k] = v` on a Python dict modelled as an
insertion-ordered association list: an existing key keeps its position
and gets the new value, a new key is appended. -/
def pyDictInsert (d : List (String × ℚ)) (k : String) (v : ℚ) : List (String × ℚ) :=
  if k ∈ d.map Prod.fst then
    d.map (fun p => if p.1 = k then (k, v) else p)
  else d ++ [(k, v)]

/-- Python dict lookup `d[k]` on the association-list model. -/
def pyDictGet? (d : List (String × ℚ)) (k : String) : Option ℚ :=
  (d.find? (fun p => p.1 == k)).map Prod.snd

/-- The dict comprehension of main.py, built left to right over
`enumerate(probabilities)` with key `label_encoder.inverse_transform([i])[0]`:
`none` models the IndexError / ValueError that inverse_transform raises
when an index i has no entry in classes. -/
def buildProbDictAux (classes : List String) : ℕ → List ℚ → List (String × ℚ) →
    Option (List (String × ℚ))
  | _, [], d => some d
  | i, p :: ps, d =>
    match classes[i]? with
    | none => none
    | some k => buildProbDictAux classes (i + 1) ps (pyDictInsert d k p)

/-- all_probs of main.py: the probability dictionary over all classifier
outputs, or `none` when building it raises. -/
def buildProbDict (classes : List String) (probs : List ℚ) :
    Option (List (String × ℚ)) :=
  buildProbDictAux classes 0 probs []

/-- The response of main.py for a filename that does not end in ".wav". -/
def formatErrorResponse : PredictionResponse :=
  { emotion := "", confidence := 0, all_probabilities := [], valid := false,
    error := some "Invalid file format. Please upload a .wav file" }

/-- The response of main.py when `extract_features` returns None. -/
def invalidAudioResponse : PredictionResponse :=
  { emotion := "", confidence := 0, all_probabilities := [], valid := false,
    error := some "Invalid audio: File is too quiet, corrupted, or not a valid audio format" }

/-- The catch-all response of main.py; the source appends str(e) to the
fixed prefix "Processing error: ". -/
def processingErrorResponse : PredictionResponse :=
  { emotion := "", confidence := 0, all_probabilities := [], valid := false,
    error := some "Processing error: unexpected exception" }

/-- `predict_emotion` of main.py, from the filename pre-filter onward,
with the models loaded.  Every fallible external call site inside the
outer try block maps its `none` (a raised exception) to the catch-all
processing-error response; `probabilities[prediction]?` models `probabilities[prediction]`
and `ctx.classes[prediction]?` models `label_encoder.inverse_transform([prediction])[0]`. -/
def predict_emotion (ctx : ModelCtx) (env : LibEnv) (f : AudioFile) :
    PredictionResponse :=
  if wavSuffix f.filename = false then formatErrorResponse
  else
    match extract_features env f with
    | .raised => processingErrorResponse
    | .ok none => invalidAudioResponse
    | .ok (some features) =>
      match ctx.scaler features with
      | none => processingErrorResponse
      | some features_scaled =>
        match ctx.cls_predict features_scaled with
        | none => processingErrorResponse
        | some prediction =>
          match ctx.cls_predict_proba features_scaled with
          | none => processingErrorResponse
          | some probabilities =>
            match ctx.classes[prediction]? with
            | none => processingErrorResponse
            | some emotion =>
              match probabilities[prediction]? with
              | none => processingErrorResponse
              | some confidence =>
                match buildProbDict ctx.classes probabilities with
                | none => processingErrorResponse
                | some all_probs =>
                  { emotion := emotion, confidence := confidence,
                    all_probabilities := all_probs, valid := true, error := none }

/-- A minimal concrete numeric environment, used to instantiate the
abstract librosa kernels when theorems are evaluated at concrete
inputs: the cepstral transform returns an empty matrix. -/
def env0 : LibEnv :=
  { mfcc := fun _ => some [], delta := fun m => some m, delta2 := fun m => some m,
    sqrt := fun q => q }

/-- A concrete numeric environment whose cepstral transform returns a
40-row matrix (each row empty), with shape-preserving derivative
kernels, as librosa's contracts promise. -/
def env1 : LibEnv :=
  { mfcc := fun _ => some (List.replicate 40 []), delta := fun m => some m,
    delta2 := fun m => some m, sqrt := fun q => q }

/-- A concrete two-class model context for evaluating the pipeline. -/
def ctx0 : ModelCtx :=
  { classes := ["angry", "happy"], scaler := fun v => some v,
    cls_predict := fun _ => some 0,
    cls_predict_proba := fun _ => some [1 / 2, 1 / 2] }

/-- A concrete well-formed request: a .wav filename decoding to one
loud sample. -/
def file0 : AudioFile := { filename := "a.wav", decoded := some [1] }

/-- A classifier artifact with six classes (its probability vectors
have six entries). -/
def cexClassifier : Classifier :=
  { nClasses := 6, cls_predict := fun _ => some 0,
    cls_predict_proba := fun _ => some (List.replicate 6 (1 / 6 : ℚ)) }

/-- A label-decoder artifact with eight classes, disagreeing with
`cexClassifier`. -/
def cexDecoder : List String :=
  ["angry", "calm", "disgust", "fearful", "happy", "neutral", "sad", "surprised"]

/-- An identity scaler artifact. -/
def cexScaler : List ℚ → Option (List ℚ) := fun v => some v

/-- The model context that `load_models` builds from the structurally
inconsistent artifact pair (6-class classifier, 8-class decoder). -/
def cexCtx : ModelCtx :=
  { classes := cexDecoder, scaler := cexScaler,
    cls_predict := cexClassifier.cls_predict,
    cls_predict_proba := cexClassifier.cls_predict_proba }

/-! ### Helper lemmas -/

lemma energyBelowThreshold_iff (a : List ℚ) :
    energyBelowThreshold a = true ↔
      0 < a.length ∧ Real.sqrt ((sumSq a : ℝ) / (a.length : ℝ)) < 1 / 1000 := by
  unfold energyBelowThreshold MIN_AUDIO_ENERGY
  rw [Bool.and_eq_true, decide_eq_true_eq, decide_eq_true_eq]
  refine and_congr_right fun hl => ?_
  have hlenR : (0 : ℝ) < (a.length : ℝ) := by exact_mod_cast hl
  rw [Real.sqrt_lt' (by norm_num : (0 : ℝ) < 1 / 1000), div_lt_iff₀ hlenR]
  have hcast : ((1 : ℝ) / 1000) ^ 2 * (a.length : ℝ) =
      (((1 / 1000 : ℚ) ^ 2 * (a.length : ℚ) : ℚ) : ℝ) := by push_cast; ring
  rw [hcast]
  exact_mod_cast Iff.rfl

lemma targetLength_eq : targetLength = 56000 := by
  unfold targetLength SAMPLE_RATE DURATION
  norm_num
  rfl

lemma padOrTrim_length (a : List ℚ) : (padOrTrim a).length = targetLength := by
  unfold padOrTrim
  split
  · simp; omega
  · simp; omega

lemma normalizeAmplitude_length (a : List ℚ) :
    (normalizeAmplitude a).length = a.length := by
  unfold normalizeAmplitude
  split <;> simp

lemma maxAbs_cons (x : ℚ) (xs : List ℚ) : maxAbs (x :: xs) = max |x| (maxAbs xs) := rfl

lemma maxAbs_map_div (a : List ℚ) (m : ℚ) (hm : 0 < m) :
    maxAbs (a.map (fun x => x / m)) = maxAbs a / m := by
  induction a with
  | nil => simp [maxAbs]
  | cons x xs ih =>
    rw [List.map_cons, maxAbs_cons, maxAbs_cons, ih, abs_div, abs_of_pos hm,
      max_div_div_right hm.le]

lemma normalizeAmplitude_def (b : List ℚ) :
    normalizeAmplitude b = if 0 < maxAbs b then b.map (fun x => x / maxAbs b) else b := rfl

lemma gate_one : energyBelowThreshold [1] = false := by
  simp [energyBelowThreshold, sumSq, MIN_AUDIO_ENERGY]
  norm_num

lemma pre_file0 : preprocess_audio { filename := "a.wav", decoded := some [1] } =
    some (normalizeAmplitude (padOrTrim [1])) := by
  simp [preprocess_audio, gate_one]

lemma ef_file0 : extract_features env0 { filename := "a.wav", decoded := some [1] } =
    .ok (some []) := by
  simp [extract_features, pre_file0, env0]

lemma wav_true : wavSuffix "a.wav" = true := by decide

lemma pe_file0 : predict_emotion ctx0 env0 file0 =
    { emotion := "angry", confidence := 1 / 2,
      all_probabilities := [("angry", 1 / 2), ("happy", 1 / 2)],
      valid := true, error := none } := by
  simp [predict_emotion, file0, wav_true, ef_file0, ctx0, buildProbDict, buildProbDictAux,
    pyDictInsert]

lemma predict_emotion_cases (ctx : ModelCtx) (env : LibEnv) (f : AudioFile) :
    predict_emotion ctx env f = formatErrorResponse ∨
    predict_emotion ctx env f = invalidAudioResponse ∨
    predict_emotion ctx env f = processingErrorResponse ∨
    ((predict_emotion ctx env f).valid = true ∧
      (predict_emotion ctx env f).error = none) := by
  unfold predict_emotion
  split
  · exact Or.inl rfl
  · split
    · exact Or.inr (Or.inr (Or.inl rfl))
    · exact Or.inr (Or.inl rfl)
    · split
      · exact Or.inr (Or.inr (Or.inl rfl))
      · split
        · exact Or.inr (Or.inr (Or.inl rfl))
        · split
          · exact Or.inr (Or.inr (Or.inl rfl))
          · split
            · exact Or.inr (Or.inr (Or.inl rfl))
            · split
              · exact Or.inr (Or.inr (Or.inl rfl))
              · split
                · exact Or.inr (Or.inr (Or.inl rfl))
                · exact Or.inr (Or.inr (Or.inr ⟨rfl, rfl⟩))

lemma predict_emotion_valid_inversion (ctx : ModelCtx) (env : LibEnv) (f : AudioFile)
    (h : (predict_emotion ctx env f).valid = true) :
    ∃ features features_scaled prediction probabilities emotion confidence all_probs,
      wavSuffix f.filename = true ∧
      extract_features env f = .ok (some features) ∧
      ctx.scaler features = some features_scaled ∧
      ctx.cls_predict features_scaled = some prediction ∧
      ctx.cls_predict_proba features_scaled = some probabilities ∧
      ctx.classes[prediction]? = some emotion ∧
      probabilities[prediction]? = some confidence ∧
      buildProbDict ctx.classes probabilities = some all_probs ∧
      predict_emotion ctx env f =
        { emotion := emotion, confidence := confidence,
          all_probabilities := all_probs, valid := true, error := none } := by
  cases hw : wavSuffix f.filename with
  | false => simp [predict_emotion, hw, formatErrorResponse] at h
  | true =>
    cases hef : extract_features env f with
    | raised => simp [predict_emotion, hw, hef, processingErrorResponse] at h
    | ok o =>
      cases o with
      | none => simp [predict_emotion, hw, hef, invalidAudioResponse] at h
      | some features =>
        cases hsc : ctx.scaler features with
        | none => simp [predict_emotion, hw, hef, hsc, processingErrorResponse] at h
        | some features_scaled =>
          cases hp : ctx.cls_predict features_scaled with
          | none => simp [predict_emotion, hw, hef, hsc, hp, processingErrorResponse] at h
          | some prediction =>
            cases hpp : ctx.cls_predict_proba features_scaled with
            | none => simp [predict_emotion, hw, hef, hsc, hp, hpp, processingErrorResponse] at h
            | some probabilities =>
              cases hcl : ctx.classes[prediction]? with
              | none =>
                simp [predict_emotion, hw, hef, hsc, hp, hpp, hcl, processingErrorResponse] at h
              | some emotion =>
                cases hcf : probabilities[prediction]? with
                | none =>
                  simp [predict_emotion, hw, hef, hsc, hp, hpp, hcl, hcf,
                    processingErrorResponse] at h
                | some confidence =>
                  cases hd : buildProbDict ctx.classes probabilities with
                  | none =>
                    simp [predict_emotion, hw, hef, hsc, hp, hpp, hcl, hcf, hd,
                      processingErrorResponse] at h
                  | some all_probs =>
                    refine ⟨features, features_scaled, prediction, probabilities,
                      emotion, confidence, all_probs, rfl, rfl, hsc, hp, hpp, hcl, hcf,
                      hd, ?_⟩
                    simp [predict_emotion, hw, hef, hsc, hp, hpp, hcl, hcf, hd]

lemma pyDictInsert_of_notMem (d : List (String × ℚ)) (k : String) (v : ℚ)
    (h : k ∉ d.map Prod.fst) : pyDictInsert d k v = d ++ [(k, v)] := by
  unfold pyDictInsert
  rw [if_neg h]

lemma buildProbDictAux_spec (classes : List String) (hnd : classes.Nodup) :
    ∀ (probs : List ℚ) (i : ℕ) (d r : List (String × ℚ)),
      (∀ k, k ∈ d.map Prod.fst → ∀ j, i ≤ j → classes[j]? ≠ some k) →
      buildProbDictAux classes i probs d = some r →
      r = d ++ ((classes.drop i).take probs.length).zip probs := by
  intro probs
  induction probs with
  | nil =>
    intro i d r hdisj hb
    simp only [buildProbDictAux, Option.some_inj] at hb
    simp [← hb]
  | cons p ps ih =>
    intro i d r hdisj hb
    cases hcl : classes[i]? with
    | none => simp [buildProbDictAux, hcl] at hb
    | some k =>
      simp only [buildProbDictAux, hcl] at hb
      have hknotin : k ∉ d.map Prod.fst := fun hk => hdisj k hk i le_rfl hcl
      rw [pyDictInsert_of_notMem d k p hknotin] at hb
      have hilt : i < classes.length := by
        rcases List.getElem?_eq_some.1 hcl with ⟨h1, _⟩
        exact h1
      have hdisj2 : ∀ k2, k2 ∈ (d ++ [(k, p)]).map Prod.fst →
          ∀ j, i + 1 ≤ j → classes[j]? ≠ some k2 := by
        intro k2 hk2 j hj
        rw [List.map_append, List.mem_append] at hk2
        rcases hk2 with hk2 | hk2
        · exact hdisj k2 hk2 j (le_trans (Nat.le_succ i) hj)
        · simp only [List.map_cons, List.map_nil, List.mem_singleton] at hk2
          subst hk2
          intro hcj
          have hij : i = j := List.getElem?_inj hilt hnd (hcl.trans hcj.symm)
          omega
      have hrec := ih (i + 1) (d ++ [(k, p)]) r hdisj2 hb
      rw [hrec]
      have hdropi : classes.drop i = k :: classes.drop (i + 1) := by
        rcases List.getElem?_eq_some.1 hcl with ⟨h1, h2⟩
        rw [List.drop_eq_getElem_cons h1, h2]
      rw [hdropi]
      simp [List.append_assoc]

lemma buildProbDictAux_le (classes : List String) :
    ∀ (probs : List ℚ) (i : ℕ) (d r : List (String × ℚ)),
      buildProbDictAux classes i probs d = some r →
      probs = [] ∨ i + probs.length ≤ classes.length := by
  intro probs
  induction probs with
  | nil => intro i d r _; exact Or.inl rfl
  | cons p ps ih =>
    intro i d r hb
    cases hcl : classes[i]? with
    | none => simp [buildProbDictAux, hcl] at hb
    | some k =>
      simp only [buildProbDictAux, hcl] at hb
      have hilt : i < classes.length := by
        rcases List.getElem?_eq_some.1 hcl with ⟨h1, _⟩
        exact h1
      rcases ih (i + 1) _ r hb with hnil | hle
      · subst hnil
        right
        simpa using hilt
      · right
        simp only [List.length_cons]
        omega

lemma buildProbDict_spec (classes : List String) (probs : List ℚ)
    (hnd : classes.Nodup) (r : List (String × ℚ))
    (hb : buildProbDict classes probs = some r) :
    r = (classes.take probs.length).zip probs ∧ probs.length ≤ classes.length := by
  have h1 := buildProbDictAux_spec classes hnd probs 0 [] r (by simp) hb
  have h2 := buildProbDictAux_le classes probs 0 [] r hb
  constructor
  · simpa using h1
  · rcases h2 with h2 | h2
    · subst h2; simp
    · omega

lemma pyDictGet_zip (ks : List String) (vs : List ℚ) (hnd : ks.Nodup) :
    ∀ (i : ℕ) (hik : i < ks.length) (hiv : i < vs.length),
      pyDictGet? (ks.zip vs) (ks[i]) = some (vs[i]) := by
  induction ks generalizing vs with
  | nil => intro i hik; simp at hik
  | cons k ks ih =>
    intro i hik hiv
    cases vs with
    | nil => simp at hiv
    | cons v vs =>
      cases i with
      | zero => simp [pyDictGet?, List.find?]
      | succ i =>
        have hknotin : k ∉ ks := (List.nodup_cons.1 hnd).1
        have hik2 : i < ks.length := by simpa using hik
        have hiv2 : i < vs.length := by simpa using hiv
        have hne : (k == ks[i]) = false := by
          rw [beq_eq_false_iff_ne]
          intro he
          exact hknotin (he ▸ List.getElem_mem hik2)
        have hstep : pyDictGet? ((k, v) :: ks.zip vs) ((k :: ks)[i + 1]) =
            pyDictGet? (ks.zip vs) (ks[i]) := by
          simp only [List.getElem_cons_succ]
          unfold pyDictGet?
          rw [List.find?_cons_of_neg]
          simpa using hne
        rw [List.zip_cons_cons, hstep]
        rw [List.getElem_cons_succ]
        exact ih vs (List.nodup_cons.1 hnd).2 i hik2 hiv2

end VoiceEmotion

namespace VoiceEmotion

/-- C1: for every decoded waveform whose RMS energy sqrt(mean(sample^2))
is below 0.001, `predict_emotion` returns the validity=false response with
the energy-related ("too quiet") message, and the result is the same for
every numeric environment and model context (universally quantified), so
neither the cepstral feature extraction nor the scaler/classifier is
invoked for the request; `extract_features` yields no feature vector. -/
theorem quiet_input_rejected (name : String) (audio : List ℚ)
    (hwav : wavSuffix name = true)
    (hlen : 0 < audio.length)
    (hrms : Real.sqrt ((sumSq audio : ℝ) / (audio.length : ℝ)) < 1 / 1000) :
    ∀ (ctx : ModelCtx) (env : LibEnv),
      extract_features env { filename := name, decoded := some audio } = .ok none ∧
      predict_emotion ctx env { filename := name, decoded := some audio } =
        invalidAudioResponse ∧
      (predict_emotion ctx env { filename := name, decoded := some audio }).valid = false ∧
      (predict_emotion ctx env { filename := name, decoded := some audio }).error =
        some "Invalid audio: File is too quiet, corrupted, or not a valid audio format" := by
  have hq : energyBelowThreshold audio = true :=
    (energyBelowThreshold_iff audio).2 ⟨hlen, hrms⟩
  intro ctx env
  have hpre : preprocess_audio { filename := name, decoded := some audio } = none := by
    simp [preprocess_audio, hq]
  have hef : extract_features env { filename := name, decoded := some audio } = .ok none := by
    simp [extract_features, hpre]
  have hpe : predict_emotion ctx env { filename := name, decoded := some audio } =
      invalidAudioResponse := by
    simp [predict_emotion, hwav, hef]
  exact ⟨hef, hpe, by rw [hpe]; rfl, by rw [hpe]; rfl⟩

/-- C1 witness: the single-sample silent waveform [0] under a .wav name. -/
theorem quiet_input_rejected_witness :
    predict_emotion ctx0 env0 { filename := "a.wav", decoded := some [0] } =
      invalidAudioResponse := by
  have hrms : Real.sqrt ((sumSq [0] : ℝ) / (([0] : List ℚ).length : ℝ)) < 1 / 1000 := by
    simp [sumSq]
  exact (quiet_input_rejected "a.wav" [0] (by decide) (by norm_num) hrms ctx0 env0).2.1

/-- C3: for every input waveform that passes the quality gate, after
length normalisation the sample count is exactly
int(sample_rate * duration) = 56000; a shorter waveform is right-padded
with zeros and a longer one keeps its first 56000 samples, and the
waveform `preprocess_audio` returns still has 56000 samples. -/
theorem length_normalization (f : AudioFile) (a out : List ℚ)
    (hdec : f.decoded = some a)
    (hgate : energyBelowThreshold a = false)
    (hout : preprocess_audio f = some out) :
    targetLength = 56000 ∧
    (padOrTrim a).length = 56000 ∧
    out.length = 56000 ∧
    (a.length < 56000 → padOrTrim a = a ++ List.replicate (56000 - a.length) 0) ∧
    (56000 ≤ a.length → padOrTrim a = a.take 56000) := by
  have hform : normalizeAmplitude (padOrTrim a) = out := by
    simpa [preprocess_audio, hdec, hgate] using hout
  refine ⟨targetLength_eq, ?_, ?_, ?_, ?_⟩
  · rw [padOrTrim_length, targetLength_eq]
  · rw [← hform, normalizeAmplitude_length, padOrTrim_length, targetLength_eq]
  · intro hlt
    unfold padOrTrim
    rw [targetLength_eq, if_pos hlt]
  · intro hge
    unfold padOrTrim
    rw [targetLength_eq, if_neg (by omega)]

/-- C3 witness: the one-sample waveform [1], padded to 56000 samples. -/
theorem length_normalization_witness :
    (normalizeAmplitude (padOrTrim [(1 : ℚ)])).length = 56000 ∧
    padOrTrim [(1 : ℚ)] = [(1 : ℚ)] ++ List.replicate (56000 - 1) 0 := by
  have h := length_normalization { filename := "a.wav", decoded := some [1] } [1]
    (normalizeAmplitude (padOrTrim [1])) rfl gate_one pre_file0
  exact ⟨h.2.2.1, h.2.2.2.1 (by norm_num)⟩

/-- C7: `predict_emotion` never raises past its boundary: for every
input (decode failures, quality-gate rejections and unexpected failures
in feature extraction, scaling or classification included) it returns a
structured response, either valid with no error or invalid with a
nonempty human-readable message. -/
theorem structured_result (ctx : ModelCtx) (env : LibEnv) (f : AudioFile) :
    ((predict_emotion ctx env f).valid = true ∧ (predict_emotion ctx env f).error = none) ∨
    ((predict_emotion ctx env f).valid = false ∧
      ∃ msg, (predict_emotion ctx env f).error = some msg ∧ msg ≠ "") := by
  rcases predict_emotion_cases ctx env f with h | h | h | h
  · right
    rw [h]
    exact ⟨rfl, _, rfl, by simp [formatErrorResponse]⟩
  · right
    rw [h]
    exact ⟨rfl, _, rfl, by simp [invalidAudioResponse]⟩
  · right
    rw [h]
    exact ⟨rfl, _, rfl, by simp [processingErrorResponse]⟩
  · exact Or.inl h

/-- C8: the amplitude normaliser is idempotent: for every waveform with
nonzero peak amplitude, peak normalisation applied twice equals peak
normalisation applied once. -/
theorem amplitude_normalizer_idempotent (a : List ℚ) (h : 0 < maxAbs a) :
    normalizeAmplitude (normalizeAmplitude a) = normalizeAmplitude a := by
  have h1 : normalizeAmplitude a = a.map (fun x => x / maxAbs a) := by
    rw [normalizeAmplitude_def, if_pos h]
  have h2 : maxAbs (normalizeAmplitude a) = 1 := by
    rw [h1, maxAbs_map_div a _ h, div_self h.ne']
  conv_lhs => rw [normalizeAmplitude_def]
  rw [h2, if_pos one_pos]
  simp

/-- C8 witness: the waveform [1/2], whose peak 1/2 is positive. -/
theorem amplitude_normalizer_idempotent_witness :
    normalizeAmplitude (normalizeAmplitude [(1 : ℚ) / 2]) =
      normalizeAmplitude [(1 : ℚ) / 2] :=
  amplitude_normalizer_idempotent [(1 : ℚ) / 2]
    (by simp [maxAbs])

/-- C9: `predict_emotion` is deterministic: the embedded pipeline is a
pure function of the request and the loaded artifacts, so feeding the
same audio resource through it twice yields identical results, at every
stage (prediction, feature extraction, preprocessing); no stage consults
any source of randomness. -/
theorem predict_deterministic (ctx : ModelCtx) (env : LibEnv) (f : AudioFile) :
    predict_emotion ctx env f = predict_emotion ctx env f ∧
    extract_features env f = extract_features env f ∧
    preprocess_audio f = preprocess_audio f :=
  ⟨rfl, rfl, rfl⟩

/-- C10: every failure response of `predict_emotion` (filename
pre-filter, decode/quality-gate rejection, or the catch-all processing
error) carries the same degenerate payload: empty emotion string,
confidence exactly 0 and an empty probability mapping. -/
theorem failure_payload (ctx : ModelCtx) (env : LibEnv) (f : AudioFile)
    (h : (predict_emotion ctx env f).valid = false) :
    (predict_emotion ctx env f).emotion = "" ∧
    (predict_emotion ctx env f).confidence = 0 ∧
    (predict_emotion ctx env f).all_probabilities = [] := by
  rcases predict_emotion_cases ctx env f with hc | hc | hc | hc
  · rw [hc]; exact ⟨rfl, rfl, rfl⟩
  · rw [hc]; exact ⟨rfl, rfl, rfl⟩
  · rw [hc]; exact ⟨rfl, rfl, rfl⟩
  · rw [h] at hc
    exact absurd hc.1 (by decide)

/-- C10 witness: a request whose filename fails the .wav pre-filter. -/
theorem failure_payload_witness :
    (predict_emotion ctx0 env0 { filename := "a.txt", decoded := none }).emotion = "" ∧
    (predict_emotion ctx0 env0 { filename := "a.txt", decoded := none }).confidence = 0 ∧
    (predict_emotion ctx0 env0 { filename := "a.txt", decoded := none }).all_probabilities
      = [] := by
  have hw : wavSuffix "a.txt" = false := by decide
  exact failure_payload ctx0 env0 _ (by simp [predict_emotion, hw, formatErrorResponse])

/-- C4: for every valid (non-rejected) input, given librosa's
documented shape contracts (mfcc with n_mfcc=40 returns 40 rows, delta
preserves shape), the feature vector has length exactly 240 and is the
concatenation, in the fixed order [base-mean, base-std, delta-mean,
delta-std, delta2-mean, delta2-std], of the per-coefficient mean and
standard deviation of the base, delta and delta-delta matrices. -/
theorem feature_vector_240 (env : LibEnv) (f : AudioFile) (v : List ℚ)
    (hm : ∀ a M, env.mfcc a = some M → M.length = N_MFCC)
    (hd1 : ∀ M N, env.delta M = some N → N.length = M.length)
    (hd2 : ∀ M N, env.delta2 M = some N → N.length = M.length)
    (hv : extract_features env f = .ok (some v)) :
    v.length = 240 ∧
    ∃ audio M D1 D2,
      preprocess_audio f = some audio ∧
      env.mfcc audio = some M ∧ env.delta M = some D1 ∧ env.delta2 M = some D2 ∧
      M.length = 40 ∧ D1.length = 40 ∧ D2.length = 40 ∧
      v = M.map rowMean ++ M.map (rowStd env) ++ D1.map rowMean ++
          D1.map (rowStd env) ++ D2.map rowMean ++ D2.map (rowStd env) := by
  cases hpre : preprocess_audio f with
  | none => simp [extract_features, hpre] at hv
  | some audio =>
    cases hmf : env.mfcc audio with
    | none => simp [extract_features, hpre, hmf] at hv
    | some M =>
      cases hdelta : env.delta M with
      | none => simp [extract_features, hpre, hmf, hdelta] at hv
      | some D1 =>
        cases hdelta2 : env.delta2 M with
        | none => simp [extract_features, hpre, hmf, hdelta, hdelta2] at hv
        | some D2 =>
          have hveq : v = M.map rowMean ++ M.map (rowStd env) ++ D1.map rowMean ++
              D1.map (rowStd env) ++ D2.map rowMean ++ D2.map (rowStd env) := by
            simp only [extract_features, hpre, hmf, hdelta, hdelta2] at hv
            cases hv
            rfl
          have hM : M.length = 40 := hm audio M hmf
          have hD1 : D1.length = 40 := by rw [hd1 M D1 hdelta, hM]
          have hD2 : D2.length = 40 := by rw [hd2 M D2 hdelta2, hM]
          refine ⟨?_, audio, M, D1, D2, rfl, hmf, hdelta, hdelta2, hM, hD1, hD2, hveq⟩
          simp [hveq, hM, hD1, hD2]

/-- C4 witness: a 40-row cepstral environment on the concrete request. -/
theorem feature_vector_240_witness :
    extract_features env1 file0 =
      .ok (some (List.replicate 240 (0 : ℚ))) ∧
    (List.replicate 240 (0 : ℚ)).length = 240 := by
  have hv : extract_features env1 file0 = .ok (some (List.replicate 240 (0 : ℚ))) := by
    simp [extract_features, file0, pre_file0, env1, rowMean, rowStd, rowVar,
      List.map_replicate]
  refine ⟨hv, ?_⟩
  exact (feature_vector_240 env1 file0 (List.replicate 240 (0 : ℚ))
    (by intro a M h; simp [env1] at h; simp [← h, N_MFCC])
    (by intro M N h; simp [env1] at h; rw [h])
    (by intro M N h; simp [env1] at h; rw [h]) hv).1

/-- C5: for every successful (valid=true) prediction under a
duplicate-free label set (LabelEncoder.classes_ is sorted-unique), the
confidence field equals the probability mapping's value at the predicted
label's key. -/
theorem confidence_matches_probability (ctx : ModelCtx) (env : LibEnv) (f : AudioFile)
    (hnd : ctx.classes.Nodup)
    (hvalid : (predict_emotion ctx env f).valid = true) :
    pyDictGet? (predict_emotion ctx env f).all_probabilities
        (predict_emotion ctx env f).emotion =
      some (predict_emotion ctx env f).confidence := by
  obtain ⟨features, fs, pred, probs, emo, conf, d, hw, hef, hsc, hp, hpp, hemo, hconf,
    hd, hr⟩ := predict_emotion_valid_inversion ctx env f hvalid
  rw [hr]
  show pyDictGet? d emo = some conf
  obtain ⟨hzip, hle⟩ := buildProbDict_spec ctx.classes probs hnd d hd
  rcases List.getElem?_eq_some.1 hemo with ⟨hpredc, hemoeq⟩
  rcases List.getElem?_eq_some.1 hconf with ⟨hpredp, hconfeq⟩
  subst hemoeq hconfeq
  rw [hzip]
  have hndt : (ctx.classes.take probs.length).Nodup :=
    (List.take_sublist _ _).nodup hnd
  have htlen : pred < (ctx.classes.take probs.length).length := by
    simp [List.length_take]
    omega
  have hzl := pyDictGet_zip (ctx.classes.take probs.length) probs hndt pred htlen hpredp
  rwa [List.getElem_take] at hzl

/-- C5 witness: the concrete two-class context, predicted label angry. -/
theorem confidence_matches_probability_witness :
    pyDictGet? (predict_emotion ctx0 env0 file0).all_probabilities
        (predict_emotion ctx0 env0 file0).emotion =
      some (predict_emotion ctx0 env0 file0).confidence :=
  confidence_matches_probability ctx0 env0 file0
    (by simp [ctx0]) (by rw [pe_file0])

/-- C6: for every successful prediction, with a duplicate-free label
set and a probability estimator whose output length matches the label
count and whose entries sum to within 1/10000 of 1 (the sklearn artifact
contract), the returned mapping's keys are exactly the loaded labels,
each label occurring exactly once, and its values sum to within 1/10000
of 1. -/
theorem probability_map_complete (ctx : ModelCtx) (env : LibEnv) (f : AudioFile)
    (hnd : ctx.classes.Nodup)
    (hcount : ∀ x ps, ctx.cls_predict_proba x = some ps → ps.length = ctx.classes.length)
    (hsum : ∀ x ps, ctx.cls_predict_proba x = some ps → |ps.sum - 1| ≤ 1 / 10000)
    (hvalid : (predict_emotion ctx env f).valid = true) :
    (predict_emotion ctx env f).all_probabilities.map Prod.fst = ctx.classes ∧
    (∀ lab ∈ ctx.classes,
      ((predict_emotion ctx env f).all_probabilities.map Prod.fst).count lab = 1) ∧
    |((predict_emotion ctx env f).all_probabilities.map Prod.snd).sum - 1| ≤ 1 / 10000 := by
  obtain ⟨features, fs, pred, probs, emo, conf, d, hw, hef, hsc, hp, hpp, hemo, hconf,
    hd, hr⟩ := predict_emotion_valid_inversion ctx env f hvalid
  obtain ⟨hzip, hle⟩ := buildProbDict_spec ctx.classes probs hnd d hd
  have hplen : probs.length = ctx.classes.length := hcount fs probs hpp
  have hdzip : d = ctx.classes.zip probs := by
    rw [hzip, hplen, List.take_length]
  have hkeys : d.map Prod.fst = ctx.classes := by
    rw [hdzip]
    exact List.map_fst_zip _ _ (le_of_eq hplen.symm)
  have hvals : d.map Prod.snd = probs := by
    rw [hdzip]
    exact List.map_snd_zip _ _ (le_of_eq hplen)
  rw [hr]
  refine ⟨hkeys, ?_, ?_⟩
  · intro lab hlab
    show (d.map Prod.fst).count lab = 1
    rw [hkeys]
    exact List.count_eq_one_of_mem hnd hlab
  · show |(d.map Prod.snd).sum - 1| ≤ 1 / 10000
    rw [hvals]
    exact hsum fs probs hpp

/-- C6 witness: the concrete two-class context with probabilities 1/2, 1/2. -/
theorem probability_map_complete_witness :
    (predict_emotion ctx0 env0 file0).all_probabilities.map Prod.fst = ctx0.classes ∧
    (∀ lab ∈ ctx0.classes,
      ((predict_emotion ctx0 env0 file0).all_probabilities.map Prod.fst).count lab = 1) ∧
    |((predict_emotion ctx0 env0 file0).all_probabilities.map Prod.snd).sum - 1|
      ≤ 1 / 10000 := by
  refine probability_map_complete ctx0 env0 file0 (by simp [ctx0]) ?_ ?_ (by rw [pe_file0])
  · intro x ps h
    simp only [ctx0, Option.some_inj] at h
    rw [← h]
    rfl
  · intro x ps h
    simp only [ctx0, Option.some_inj] at h
    rw [← h]
    norm_num

/-- C2 counterexample: `load_models` performs no consistency check, so a
classifier artifact with 6 classes and a label decoder with 8 classes
load successfully and a prediction request is then served (valid=true)
against the structurally inconsistent artifacts, contrary to the claim
that initialization fails fatally. -/
theorem startup_consistency_counterexample :
    cexClassifier.nClasses = 6 ∧ cexDecoder.length = 8 ∧
    cexClassifier.nClasses ≠ cexDecoder.length ∧
    load_models (some cexClassifier) (some cexDecoder) (some cexScaler) = some cexCtx ∧
    (predict_emotion cexCtx env0 file0).valid = true := by
  refine ⟨rfl, rfl, by decide, rfl, ?_⟩
  simp [predict_emotion, file0, wav_true, ef_file0, cexCtx, cexClassifier, cexScaler,
    cexDecoder, buildProbDict, buildProbDictAux, pyDictInsert]

/-- C2 amended: initialization fails fatally iff one of the three
artifact loads raises; no cross-artifact class-count or ordering check
is performed, and predictions can be served with artifacts whose class
counts disagree. -/
theorem load_models_no_consistency_check :
    (∀ (c : Option Classifier) (l : Option (List String))
        (s : Option (List ℚ → Option (List ℚ))),
        (load_models c l s).isNone = (c.isNone || l.isNone || s.isNone)) ∧
    load_models (some cexClassifier) (some cexDecoder) (some cexScaler) = some cexCtx ∧
    cexClassifier.nClasses ≠ cexDecoder.length ∧
    (predict_emotion cexCtx env0 file0).valid = true := by
  refine ⟨?_, rfl, by decide, ?_⟩
  · intro c l s
    cases c <;> cases l <;> cases s <;> rfl
  · simp [predict_emotion, file0, wav_true, ef_file0, cexCtx, cexClassifier, cexScaler,
      cexDecoder, buildProbDict, buildProbDictAux, pyDictInsert]

end VoiceEmotion
